/-
  Verification of Falcor's light-source hierarchy
  (Framework/Source/Graphics/Light.h).

  Shallow embedding: each C++ class's mutable state becomes a Lean
  structure, each member function a pure state-transformer.  C++ `float`
  and glm `vec3` are modelled over `Rat`, since every operation in the
  file is plain assignment and componentwise multiplication.

  Parts of the repository referenced by the header but not present in
  the sources (Light.cpp bodies, the LightData struct from
  Data/HostDeviceData.h) are modelled from the specification; every such
  definition carries a doc comment beginning `Modelled from the spec:`.
-/
import Mathlib

namespace Falcor

/-- glm `vec3`, modelled componentwise over `Rat`. -/
structure Vec3 where
  x : Rat
  y : Rat
  z : Rat
deriving DecidableEq

/-- Componentwise scalar multiplication, as in glm `vec3 * float`. -/
def Vec3.smul (v : Vec3) (s : Rat) : Vec3 :=
  ⟨v.x * s, v.y * s, v.z * s⟩

/-- Componentwise subtraction, as in glm `vec3 - vec3`. -/
def Vec3.sub (a b : Vec3) : Vec3 :=
  ⟨a.x - b.x, a.y - b.y, a.z - b.z⟩

/-- Modelled from the spec: the derived cone-attenuation factors that
`SpotLight::updateConeProperties` (defined in Light.cpp, absent from the
sources) computes from the inner and outer cone angles.  The concrete
trigonometric formula is not available, so the derivation is modelled as
an uninterpreted fixed function of the pair of angles (in degrees). -/
def coneAttenuationFactors (innerDeg outerDeg : Rat) : Rat × Rat :=
  (innerDeg, outerDeg)

/-- Modelled from the spec: the `LightData` struct from
Data/HostDeviceData.h (absent from the sources) — the single plain-data
block mirrored to the GPU buffer.  Fields are those the header's setters
and getters touch, plus the derived attenuation factors. -/
structure LightData where
  posW : Vec3
  type : Nat
  dirW : Vec3
  upW : Vec3
  lightColor : Vec3
  attenuationRadius : Rat
  sourceRadius : Rat
  sourceLength : Rat
  coneAttenFactors : Rat × Rat
deriving DecidableEq

/-- Modelled from the spec: default-initialized `LightData` block
(defaults live in Data/HostDeviceData.h, absent from the sources).  Per
the spec's invariant "color = base color × intensity", the default
`lightColor` is (1,1,1), matching default color (1,1,1) × intensity 1. -/
def LightData.init (ty : Nat) : LightData where
  posW := ⟨0, 0, 0⟩
  type := ty
  dirW := ⟨0, 0, 0⟩
  upW := ⟨0, 0, 0⟩
  lightColor := ⟨1, 1, 1⟩
  attenuationRadius := 0
  sourceRadius := 0
  sourceLength := 0
  coneAttenFactors := coneAttenuationFactors 0 45

/-- State of the `Light` base class: `mName`, `mColor`, `mIntensity`,
`mData`.  The fields written by `PointLight`'s setters (`posW`, `upW`,
`attenuationRadius`, `sourceRadius`, `sourceLength`) already live in the
base-class `mData`, so `DirectionalLight` and `PointLight` states are
both `LightState`s. -/
structure LightState where
  mName : String
  mColor : Vec3
  mIntensity : Rat
  mData : LightData
deriving DecidableEq

/-- `Light::updateLightColor`: `mData.lightColor = mColor * mIntensity`. -/
def LightState.updateLightColor (s : LightState) : LightState :=
  { s with mData.lightColor := s.mColor.smul s.mIntensity }

/-- `Light::setIntensity`: `mIntensity = intensity; updateLightColor();`. -/
def LightState.setIntensity (s : LightState) (intensity : Rat) : LightState :=
  LightState.updateLightColor { s with mIntensity := intensity }

/-- `Light::setColor`: `mColor = color; updateLightColor();`. -/
def LightState.setColor (s : LightState) (color : Vec3) : LightState :=
  LightState.updateLightColor { s with mColor := color }

/-- `Light::setDirection`: `mData.dirW = dir;`. -/
def LightState.setDirection (s : LightState) (dir : Vec3) : LightState :=
  { s with mData.dirW := dir }

/-- `Light::setName`: `mName = Name;`. -/
def LightState.setName (s : LightState) (n : String) : LightState :=
  { s with mName := n }

/-- `Light::getIntensity`. -/
def LightState.getIntensity (s : LightState) : Rat := s.mIntensity

/-- `Light::getColor`. -/
def LightState.getColor (s : LightState) : Vec3 := s.mColor

/-- `Light::getDirection`: returns `mData.dirW`. -/
def LightState.getDirection (s : LightState) : Vec3 := s.mData.dirW

/-- `Light::getType`: returns `mData.type`. -/
def LightState.getType (s : LightState) : Nat := s.mData.type

/-- `Light::getData`: returns `mData`. -/
def LightState.getData (s : LightState) : LightData := s.mData

/-- `Light::getName`. -/
def LightState.getName (s : LightState) : String := s.mName

/-- Modelled from the spec: `sizeof(LightData)` — the byte size of the
GPU data block defined in Data/HostDeviceData.h (absent from the
sources).  Modelled as 4 bytes per 32-bit scalar slot of the modelled
`LightData` (four `Vec3`s, the type tag, three scalar radii/lengths and
the two attenuation factors: 18 slots). -/
def sizeofLightData : Nat := 4 * 18

/-- `Light::kDataSize = sizeof(LightData)` (static constant). -/
def kDataSize : Nat := sizeofLightData

/-- `Light::getShaderStructSize` (static): `return kDataSize;`. -/
def getShaderStructSize : Nat := kDataSize

/-- `PointLight::setAttenuationRadius`: `mData.attenuationRadius = radius;`. -/
def LightState.setAttenuationRadius (s : LightState) (radius : Rat) : LightState :=
  { s with mData.attenuationRadius := radius }

/-- `PointLight::setPosition`: `mData.posW = pos;`. -/
def LightState.setPosition (s : LightState) (pos : Vec3) : LightState :=
  { s with mData.posW := pos }

/-- `PointLight::setUpVector`: `mData.upW = up;`. -/
def LightState.setUpVector (s : LightState) (up : Vec3) : LightState :=
  { s with mData.upW := up }

/-- `PointLight::setSourceRadius`: `mData.sourceRadius = radius;`. -/
def LightState.setSourceRadius (s : LightState) (radius : Rat) : LightState :=
  { s with mData.sourceRadius := radius }

/-- `PointLight::setSourceLength`: `mData.sourceLength = length;`. -/
def LightState.setSourceLength (s : LightState) (length : Rat) : LightState :=
  { s with mData.sourceLength := length }

/-- `PointLight::getAttenuationRadius`. -/
def LightState.getAttenuationRadius (s : LightState) : Rat := s.mData.attenuationRadius

/-- `PointLight::getPosition`: returns `mData.posW`. -/
def LightState.getPosition (s : LightState) : Vec3 := s.mData.posW

/-- `PointLight::getUpVector`: returns `mData.upW`. -/
def LightState.getUpVector (s : LightState) : Vec3 := s.mData.upW

/-- `PointLight::getSourceRadius`. -/
def LightState.getSourceRadius (s : LightState) : Rat := s.mData.sourceRadius

/-- `PointLight::getSourceLength`. -/
def LightState.getSourceLength (s : LightState) : Rat := s.mData.sourceLength

/-- `DirectionalLight::prepareGPUData() override {}` — empty body. -/
def DirectionalLight.prepareGPUData (s : LightState) : LightState := s

/-- `DirectionalLight::unloadGPUData() override {}` — empty body. -/
def DirectionalLight.unloadGPUData (s : LightState) : LightState := s

/-- `PointLight::prepareGPUData() override {}` — empty body. -/
def PointLight.prepareGPUData (s : LightState) : LightState := s

/-- `PointLight::unloadGPUData() override {}` — empty body. -/
def PointLight.unloadGPUData (s : LightState) : LightState := s

/-- Modelled from the spec: `PointLight::move(position, target, up)`
(the IMovableObject hook; its body lives in Light.cpp, absent from the
sources).  Per the spec's narrow movable-object interface, it places the
light at `position`, points it at `target` and sets its up vector. -/
def LightState.move (s : LightState) (position target up : Vec3) : LightState :=
  { s with
      mData.posW := position
      mData.dirW := target.sub position
      mData.upW := up }

/-- State of `SpotLight`: the inherited `PointLight`/`Light` state plus
the two cone angles, in degrees (`mInnerConeAngle`, `mOuterConeAngle`). -/
structure SpotState where
  base : LightState
  mInnerConeAngle : Rat
  mOuterConeAngle : Rat
deriving DecidableEq

/-- Modelled from the spec: `SpotLight::updateConeProperties` (defined
in Light.cpp, absent from the sources) — "cone angles → attenuation
factors": it re-derives the attenuation parameters stored in the GPU
data block from the current cone angles. -/
def SpotState.updateConeProperties (s : SpotState) : SpotState :=
  { s with
      base.mData.coneAttenFactors :=
        coneAttenuationFactors s.mInnerConeAngle s.mOuterConeAngle }

/-- Modelled from the spec: `SpotLight::setInnerConeAngle` (defined in
Light.cpp, absent from the sources).  Per the spec, "cone-angle
monotonicity [is] trivially enforced by setters": the stored inner angle
is the requested angle capped at the outer angle, and the derived cone
properties are recomputed. -/
def SpotState.setInnerConeAngle (s : SpotState) (angle : Rat) : SpotState :=
  SpotState.updateConeProperties
    { s with mInnerConeAngle := min angle s.mOuterConeAngle }

/-- Modelled from the spec: `SpotLight::setOuterConeAngle` (defined in
Light.cpp, absent from the sources).  Per the spec's cone-angle
monotonicity, the outer angle is set to the requested angle, the inner
angle is capped at the new outer angle, and the derived cone properties
are recomputed. -/
def SpotState.setOuterConeAngle (s : SpotState) (angle : Rat) : SpotState :=
  SpotState.updateConeProperties
    { s with
        mOuterConeAngle := angle
        mInnerConeAngle := min s.mInnerConeAngle angle }

/-- `SpotLight::getInnerConeAngle`. -/
def SpotState.getInnerConeAngle (s : SpotState) : Rat := s.mInnerConeAngle

/-- `SpotLight::getOuterConeAngle`. -/
def SpotState.getOuterConeAngle (s : SpotState) : Rat := s.mOuterConeAngle

/-- `SpotLight` inherits `PointLight::setPosition` unchanged: the member
function is the base-class code acting on the base subobject. -/
def SpotState.setPosition (s : SpotState) (pos : Vec3) : SpotState :=
  { s with base := s.base.setPosition pos }

/-- `SpotLight` inherits `PointLight::getPosition` unchanged. -/
def SpotState.getPosition (s : SpotState) : Vec3 := s.base.getPosition

/-- `SpotLight` inherits `PointLight::setAttenuationRadius` unchanged. -/
def SpotState.setAttenuationRadius (s : SpotState) (radius : Rat) : SpotState :=
  { s with base := s.base.setAttenuationRadius radius }

/-- `SpotLight` inherits `PointLight::getAttenuationRadius` unchanged. -/
def SpotState.getAttenuationRadius (s : SpotState) : Rat :=
  s.base.getAttenuationRadius

/-- `SpotLight` inherits `PointLight::setUpVector` unchanged. -/
def SpotState.setUpVector (s : SpotState) (up : Vec3) : SpotState :=
  { s with base := s.base.setUpVector up }

/-- `SpotLight` inherits `PointLight::getUpVector` unchanged. -/
def SpotState.getUpVector (s : SpotState) : Vec3 := s.base.getUpVector

/-- `SpotLight` inherits `PointLight::setSourceRadius` unchanged. -/
def SpotState.setSourceRadius (s : SpotState) (radius : Rat) : SpotState :=
  { s with base := s.base.setSourceRadius radius }

/-- `SpotLight` inherits `PointLight::getSourceRadius` unchanged. -/
def SpotState.getSourceRadius (s : SpotState) : Rat := s.base.getSourceRadius

/-- `SpotLight` inherits `PointLight::setSourceLength` unchanged. -/
def SpotState.setSourceLength (s : SpotState) (length : Rat) : SpotState :=
  { s with base := s.base.setSourceLength length }

/-- `SpotLight` inherits `PointLight::getSourceLength` unchanged. -/
def SpotState.getSourceLength (s : SpotState) : Rat := s.base.getSourceLength

/-- `SpotLight` declares no `move` override, so it inherits
`PointLight::move` unchanged. -/
def SpotState.move (s : SpotState) (position target up : Vec3) : SpotState :=
  { s with base := s.base.move position target up }

/-- Modelled from the spec: light-type tags (the enum values live in
Data/HostDeviceData.h, absent from the sources). -/
def LightTypePoint : Nat := 0

/-- Modelled from the spec: directional light-type tag. -/
def LightTypeDirectional : Nat := 1

/-- Base-class state after construction.  The member initializers
`mColor = vec3(1.0f)` and `mIntensity = 1.0f` are in the header;
`mName` default-constructs to the empty string; the `mData` defaults are
modelled (`LightData.init`). -/
def LightState.init (ty : Nat) : LightState where
  mName := ""
  mColor := ⟨1, 1, 1⟩
  mIntensity := 1
  mData := LightData.init ty

/-- Modelled from the spec: state produced by `DirectionalLight::create`
(constructor body in Light.cpp, absent from the sources): a
default-initialized light tagged as directional. -/
def DirectionalLight.init : LightState := LightState.init LightTypeDirectional

/-- Modelled from the spec: state produced by `PointLight::create`
(constructor body in Light.cpp, absent from the sources): a
default-initialized light tagged as a point light. -/
def PointLight.init : LightState := LightState.init LightTypePoint

/-- State produced by `SpotLight::create`.  The member initializers
`mInnerConeAngle = 0.0f` and `mOuterConeAngle = 45.0f` are in the
header; the constructor body (Light.cpp, absent from the sources) is
modelled from the spec as tagging the light and deriving the cone
properties from the initial angles. -/
def SpotLight.init : SpotState :=
  SpotState.updateConeProperties
    { base := LightState.init LightTypePoint
      mInnerConeAngle := 0
      mOuterConeAngle := 45 }

/-- The operations of the `Light`/`DirectionalLight`/`PointLight`
interface.  All of them act on the base-class state `LightState`, since
every field the `PointLight` setters write lives in the base-class
`mData`. -/
inductive LightOp where
  | setIntensity (intensity : Rat)
  | setColor (color : Vec3)
  | setDirection (dir : Vec3)
  | setName (n : String)
  | setPosition (pos : Vec3)
  | setUpVector (up : Vec3)
  | setAttenuationRadius (radius : Rat)
  | setSourceRadius (radius : Rat)
  | setSourceLength (length : Rat)
  | prepareGPUData
  | unloadGPUData
  | move (position target up : Vec3)

/-- Interpreter for a single `LightOp`. -/
def applyLightOp (s : LightState) : LightOp → LightState
  | .setIntensity i => s.setIntensity i
  | .setColor c => s.setColor c
  | .setDirection d => s.setDirection d
  | .setName n => s.setName n
  | .setPosition p => s.setPosition p
  | .setUpVector u => s.setUpVector u
  | .setAttenuationRadius r => s.setAttenuationRadius r
  | .setSourceRadius r => s.setSourceRadius r
  | .setSourceLength l => s.setSourceLength l
  | .prepareGPUData => PointLight.prepareGPUData s
  | .unloadGPUData => PointLight.unloadGPUData s
  | .move p t u => s.move p t u

/-- The operations of the `SpotLight` interface: every inherited
operation plus the two cone-angle setters. -/
inductive SpotOp where
  | inherited (op : LightOp)
  | setInnerConeAngle (angle : Rat)
  | setOuterConeAngle (angle : Rat)

/-- Interpreter for a single `SpotOp`.  Inherited operations are the
base-class code acting on the base subobject. -/
def applySpotOp (s : SpotState) : SpotOp → SpotState
  | .inherited op => { s with base := applyLightOp s.base op }
  | .setInnerConeAngle a => s.setInnerConeAngle a
  | .setOuterConeAngle a => s.setOuterConeAngle a

/-- Run a sequence of base-interface operations. -/
def runLightOps (s : LightState) (ops : List LightOp) : LightState :=
  ops.foldl applyLightOp s

/-- Run a sequence of spot-light operations. -/
def runSpotOps (s : SpotState) (ops : List SpotOp) : SpotState :=
  ops.foldl applySpotOp s

/-- The spec's data-model invariant: the GPU `lightColor` equals the
modulation color times the intensity. -/
def lightColorInv (s : LightState) : Prop :=
  s.mData.lightColor = s.mColor.smul s.mIntensity

/-- Cone-angle monotonicity: inner cone angle ≤ outer cone angle. -/
def coneAngleInv (s : SpotState) : Prop :=
  s.mInnerConeAngle ≤ s.mOuterConeAngle

/-- Any single base-interface operation preserves the
color-times-intensity invariant: `setIntensity` and `setColor` re-derive
`lightColor`, and no other operation touches `lightColor`, `mColor` or
`mIntensity`. -/
lemma lightColorInv_applyLightOp (s : LightState) (op : LightOp)
    (h : lightColorInv s) : lightColorInv (applyLightOp s op) := by
  cases op <;>
    simp_all [applyLightOp, lightColorInv, LightState.setIntensity,
      LightState.setColor, LightState.updateLightColor,
      LightState.setDirection, LightState.setName, LightState.setPosition,
      LightState.setUpVector, LightState.setAttenuationRadius,
      LightState.setSourceRadius, LightState.setSourceLength,
      PointLight.prepareGPUData, PointLight.unloadGPUData, LightState.move]

/-- The color-times-intensity invariant is preserved by any sequence of
base-interface operations. -/
lemma lightColorInv_runLightOps (ops : List LightOp) :
    ∀ s : LightState, lightColorInv s → lightColorInv (runLightOps s ops) := by
  induction ops with
  | nil => intro s h; exact h
  | cons op rest ih =>
      intro s h
      exact ih (applyLightOp s op) (lightColorInv_applyLightOp s op h)

/-- Any single spot-light operation preserves the color-times-intensity
invariant on the base state: the cone-angle setters write only the cone
angles and the derived attenuation factors. -/
lemma lightColorInv_applySpotOp (s : SpotState) (op : SpotOp)
    (h : lightColorInv s.base) : lightColorInv (applySpotOp s op).base := by
  cases op with
  | inherited op => exact lightColorInv_applyLightOp s.base op h
  | setInnerConeAngle a =>
      simp_all [applySpotOp, lightColorInv, SpotState.setInnerConeAngle,
        SpotState.updateConeProperties]
  | setOuterConeAngle a =>
      simp_all [applySpotOp, lightColorInv, SpotState.setOuterConeAngle,
        SpotState.updateConeProperties]

/-- The color-times-intensity invariant is preserved by any sequence of
spot-light operations. -/
lemma lightColorInv_runSpotOps (ops : List SpotOp) :
    ∀ s : SpotState, lightColorInv s.base →
      lightColorInv (runSpotOps s ops).base := by
  induction ops with
  | nil => intro s h; exact h
  | cons op rest ih =>
      intro s h
      exact ih (applySpotOp s op) (lightColorInv_applySpotOp s op h)

/-- The default-constructed base state satisfies the invariant. -/
lemma lightColorInv_init (ty : Nat) : lightColorInv (LightState.init ty) := by
  simp [lightColorInv, LightState.init, LightData.init, Vec3.smul]

/-- Any single spot-light operation preserves cone-angle monotonicity:
inherited operations do not touch the angles, `setInnerConeAngle` caps
the inner angle at the outer angle, and `setOuterConeAngle` caps the
inner angle at the new outer angle. -/
lemma coneAngleInv_applySpotOp (s : SpotState) (op : SpotOp)
    (h : coneAngleInv s) : coneAngleInv (applySpotOp s op) := by
  cases op with
  | inherited op => exact h
  | setInnerConeAngle a =>
      simp [applySpotOp, coneAngleInv, SpotState.setInnerConeAngle,
        SpotState.updateConeProperties]
  | setOuterConeAngle a =>
      simp [applySpotOp, coneAngleInv, SpotState.setOuterConeAngle,
        SpotState.updateConeProperties]

/-- Cone-angle monotonicity is preserved by any sequence of spot-light
operations. -/
lemma coneAngleInv_runSpotOps (ops : List SpotOp) :
    ∀ s : SpotState, coneAngleInv s → coneAngleInv (runSpotOps s ops) := by
  induction ops with
  | nil => intro s h; exact h
  | cons op rest ih =>
      intro s h
      exact ih (applySpotOp s op) (coneAngleInv_applySpotOp s op h)

/-- C1: for every light (directional, point, or spot) and every sequence
of interface operations starting from construction, the GPU data field
`lightColor` equals the current modulation color multiplied by the
current intensity: `setIntensity` and `setColor` each re-derive
`mData.lightColor = mColor * mIntensity`, and no other operation breaks
the equation. -/
theorem lightColor_always_color_mul_intensity :
    (∀ ops : List LightOp,
        lightColorInv (runLightOps DirectionalLight.init ops)
        ∧ lightColorInv (runLightOps PointLight.init ops))
    ∧ ∀ ops : List SpotOp, lightColorInv (runSpotOps SpotLight.init ops).base := by
  refine ⟨fun ops => ⟨?_, ?_⟩, fun ops => ?_⟩
  · exact lightColorInv_runLightOps ops _ (lightColorInv_init _)
  · exact lightColorInv_runLightOps ops _ (lightColorInv_init _)
  · refine lightColorInv_runSpotOps ops _ ?_
    simpa [SpotLight.init, SpotState.updateConeProperties] using
      lightColorInv_init LightTypePoint

/-- C2: for every SpotLight and every sequence of operations starting
from construction (in particular every sequence of `setInnerConeAngle`
and `setOuterConeAngle` calls), the inner cone angle stays less than or
equal to the outer cone angle. -/
theorem inner_cone_angle_le_outer :
    ∀ ops : List SpotOp, coneAngleInv (runSpotOps SpotLight.init ops) := by
  intro ops
  refine coneAngleInv_runSpotOps ops _ ?_
  simp [coneAngleInv, SpotLight.init, SpotState.updateConeProperties]

/-- C3: setting intensity or color updates the GPU-consumable color
(`getData().lightColor = getColor() * i` after `setIntensity(i)`, and
`getData().lightColor = c * getIntensity()` after `setColor(c)`), and
after `setInnerConeAngle` or `setOuterConeAngle` the derived attenuation
factors in the GPU data block have been re-derived from the new cone
angles by `updateConeProperties`. -/
theorem setters_update_derived_gpu_data :
    (∀ (s : LightState) (i : Rat),
        (s.setIntensity i).getData.lightColor = (s.setIntensity i).getColor.smul i)
    ∧ (∀ (s : LightState) (c : Vec3),
        (s.setColor c).getData.lightColor = c.smul (s.setColor c).getIntensity)
    ∧ (∀ (s : SpotState) (a : Rat),
        (s.setInnerConeAngle a).base.mData.coneAttenFactors
          = coneAttenuationFactors (s.setInnerConeAngle a).mInnerConeAngle
              (s.setInnerConeAngle a).mOuterConeAngle)
    ∧ ∀ (s : SpotState) (a : Rat),
        (s.setOuterConeAngle a).base.mData.coneAttenFactors
          = coneAttenuationFactors (s.setOuterConeAngle a).mInnerConeAngle
              (s.setOuterConeAngle a).mOuterConeAngle := by
  refine ⟨fun s i => rfl, fun s c => rfl, fun s a => rfl, fun s a => rfl⟩

/-- C4: no setter fails or signals an error: every setter is a total
state-transformer that, for every input value (negative intensities,
zero-length directions, arbitrary angles included), assigns the given
value — or, for the cone-angle setters, the value derived from it by the
monotonicity cap — and returns the updated state. -/
theorem setters_total_and_assign :
    ∀ (s : LightState) (t : SpotState) (v : Rat) (d : Vec3) (n : String),
      (s.setIntensity v).mIntensity = v
      ∧ (s.setColor d).mColor = d
      ∧ (s.setDirection d).mData.dirW = d
      ∧ (s.setPosition d).mData.posW = d
      ∧ (s.setUpVector d).mData.upW = d
      ∧ (s.setAttenuationRadius v).mData.attenuationRadius = v
      ∧ (s.setSourceRadius v).mData.sourceRadius = v
      ∧ (s.setSourceLength v).mData.sourceLength = v
      ∧ (s.setName n).mName = n
      ∧ (t.setInnerConeAngle v).mInnerConeAngle = min v t.mOuterConeAngle
      ∧ (t.setOuterConeAngle v).mOuterConeAngle = v := by
  intro s t v d n
  exact ⟨rfl, rfl, rfl, rfl, rfl, rfl, rfl, rfl, rfl, rfl, rfl⟩

/-- C5: `DirectionalLight` and `PointLight` override `prepareGPUData`
and `unloadGPUData` with empty bodies, so both hooks leave every
observable field of the light unchanged. -/
theorem prepare_unload_gpu_data_noop :
    ∀ s : LightState,
      DirectionalLight.prepareGPUData s = s
      ∧ DirectionalLight.unloadGPUData s = s
      ∧ PointLight.prepareGPUData s = s
      ∧ PointLight.unloadGPUData s = s := by
  intro s
  exact ⟨rfl, rfl, rfl, rfl⟩

/-- C6: `getShaderStructSize()` returns `kDataSize = sizeof(LightData)`,
a state-independent constant shared by every light type, and `getData()`
returns the light's `LightData` block (for a SpotLight, the block in its
inherited base state). -/
theorem shader_struct_size_and_data :
    getShaderStructSize = kDataSize
    ∧ kDataSize = sizeofLightData
    ∧ (∀ s : LightState, s.getData = s.mData)
    ∧ ∀ t : SpotState, t.base.getData = t.base.mData := by
  exact ⟨rfl, rfl, fun s => rfl, fun t => rfl⟩

/-- C7: SpotLight inherits every PointLight operation unchanged: each
inherited setter/getter and `move` act on the inherited base state
exactly as the corresponding PointLight operation, and leave the
spot-specific cone angles untouched. -/
theorem spot_inherits_point_ops :
    ∀ (s : SpotState) (p u tgt : Vec3) (r l : Rat),
      (s.setPosition p).base = s.base.setPosition p
      ∧ (s.setPosition p).mInnerConeAngle = s.mInnerConeAngle
      ∧ (s.setPosition p).mOuterConeAngle = s.mOuterConeAngle
      ∧ s.getPosition = s.base.getPosition
      ∧ (s.setAttenuationRadius r).base = s.base.setAttenuationRadius r
      ∧ (s.setAttenuationRadius r).mInnerConeAngle = s.mInnerConeAngle
      ∧ (s.setAttenuationRadius r).mOuterConeAngle = s.mOuterConeAngle
      ∧ s.getAttenuationRadius = s.base.getAttenuationRadius
      ∧ (s.setUpVector u).base = s.base.setUpVector u
      ∧ (s.setUpVector u).mInnerConeAngle = s.mInnerConeAngle
      ∧ (s.setUpVector u).mOuterConeAngle = s.mOuterConeAngle
      ∧ s.getUpVector = s.base.getUpVector
      ∧ (s.setSourceRadius r).base = s.base.setSourceRadius r
      ∧ (s.setSourceRadius r).mInnerConeAngle = s.mInnerConeAngle
      ∧ (s.setSourceRadius r).mOuterConeAngle = s.mOuterConeAngle
      ∧ s.getSourceRadius = s.base.getSourceRadius
      ∧ (s.setSourceLength l).base = s.base.setSourceLength l
      ∧ (s.setSourceLength l).mInnerConeAngle = s.mInnerConeAngle
      ∧ (s.setSourceLength l).mOuterConeAngle = s.mOuterConeAngle
      ∧ s.getSourceLength = s.base.getSourceLength
      ∧ (s.move p tgt u).base = s.base.move p tgt u
      ∧ (s.move p tgt u).mInnerConeAngle = s.mInnerConeAngle
      ∧ (s.move p tgt u).mOuterConeAngle = s.mOuterConeAngle := by
  intro s p u tgt r l
  exact ⟨rfl, rfl, rfl, rfl, rfl, rfl, rfl, rfl, rfl, rfl, rfl, rfl, rfl,
    rfl, rfl, rfl, rfl, rfl, rfl, rfl, rfl, rfl, rfl⟩

/-- C8: setter/getter round-trips are exact, with no normalization or
clamping: `setDirection` then `getDirection` returns the vector
unchanged (unit length or not), and likewise for position, attenuation
radius and name. -/
theorem setter_getter_roundtrips :
    ∀ (s : LightState) (d p : Vec3) (r : Rat) (n : String),
      (s.setDirection d).getDirection = d
      ∧ (s.setPosition p).getPosition = p
      ∧ (s.setAttenuationRadius r).getAttenuationRadius = r
      ∧ (s.setName n).getName = n := by
  intro s d p r n
  exact ⟨rfl, rfl, rfl, rfl⟩

/-- The observable fields of a base-class light state other than
`mData.dirW`: used to state that `setDirection` changes nothing else. -/
def LightState.frameExceptDir (s t : LightState) : Prop :=
  s.mName = t.mName ∧ s.mColor = t.mColor ∧ s.mIntensity = t.mIntensity
  ∧ s.mData.posW = t.mData.posW ∧ s.mData.type = t.mData.type
  ∧ s.mData.upW = t.mData.upW ∧ s.mData.lightColor = t.mData.lightColor
  ∧ s.mData.attenuationRadius = t.mData.attenuationRadius
  ∧ s.mData.sourceRadius = t.mData.sourceRadius
  ∧ s.mData.sourceLength = t.mData.sourceLength
  ∧ s.mData.coneAttenFactors = t.mData.coneAttenFactors

/-- C9: each plain setter modifies only its own field.  `setDirection`
changes only `mData.dirW`, and each PointLight setter changes only its
one `mData` field; all other fields of the state (name, color,
intensity, `lightColor`, and every other `LightData` field) are
unchanged, which we state by full record equality with a single-field
update. -/
theorem setters_modify_only_own_field :
    ∀ (s : LightState) (d p u : Vec3) (r ln : Rat),
      (s.setDirection d).frameExceptDir s
      ∧ s.setPosition p
          = { s with mData.posW := p }
      ∧ s.setUpVector u
          = { s with mData.upW := u }
      ∧ s.setAttenuationRadius r
          = { s with mData.attenuationRadius := r }
      ∧ s.setSourceRadius r
          = { s with mData.sourceRadius := r }
      ∧ s.setSourceLength ln
          = { s with mData.sourceLength := ln } := by
  intro s d p u r ln
  exact ⟨⟨rfl, rfl, rfl, rfl, rfl, rfl, rfl, rfl, rfl, rfl, rfl⟩,
    rfl, rfl, rfl, rfl, rfl⟩

/-- C10: default construction establishes the fixed initial parameters:
every newly constructed light has modulation color (1,1,1) and intensity
1, its `lightColor` is derived from these, and a newly constructed
SpotLight has inner cone angle 0 degrees and outer cone angle
45 degrees. -/
theorem default_construction_parameters :
    DirectionalLight.init.mColor = ⟨1, 1, 1⟩
    ∧ DirectionalLight.init.mIntensity = 1
    ∧ DirectionalLight.init.mData.lightColor
        = DirectionalLight.init.mColor.smul DirectionalLight.init.mIntensity
    ∧ PointLight.init.mColor = ⟨1, 1, 1⟩
    ∧ PointLight.init.mIntensity = 1
    ∧ PointLight.init.mData.lightColor
        = PointLight.init.mColor.smul PointLight.init.mIntensity
    ∧ SpotLight.init.base.mColor = ⟨1, 1, 1⟩
    ∧ SpotLight.init.base.mIntensity = 1
    ∧ SpotLight.init.base.mData.lightColor
        = SpotLight.init.base.mColor.smul SpotLight.init.base.mIntensity
    ∧ SpotLight.init.mInnerConeAngle = 0
    ∧ SpotLight.init.mOuterConeAngle = 45 := by
  refine ⟨rfl, rfl, ?_, rfl, rfl, ?_, rfl, rfl, ?_, rfl, rfl⟩ <;>
    simp [DirectionalLight.init, PointLight.init, SpotLight.init,
      SpotState.updateConeProperties, LightState.init, LightData.init, Vec3.smul]

end Falcor
